import Mathlib

/-!
# Verification of the secure configuration store of `openai-backup`

This file gives a shallow embedding, in Lean 4, of the password-gated
configuration store (`src/store.go`, type `configStore`) and of the web
server's configuration coordination logic (`src/server.go`, type
`webServer`) of the `openai-backup` repository, together with proofs of
the behavioural properties claimed by the specification.

Modelling conventions:

* Go byte strings and Go `string` values are modelled as `List Nat`
  (one `Nat` per byte).  `strings.TrimSpace` is modelled over the ASCII
  whitespace bytes, which is exact for ASCII data.
* Go `int` is modelled as `Int`; timestamps (`time.Time` /
  `time.Duration`) as `Int` nanoseconds, matching Go's `time.Duration`
  representation (`30 * time.Second = 30e9`).
* Methods that mutate the receiver and return `error` are modelled as
  functions returning a pair `(new state, Option err)`; the Go
  convention of returning before any mutation on the error paths is
  made explicit by returning the unchanged input state together with
  the error.
* Randomness (`crypto/rand`): the random salt and nonce generated
  inside `SetPassword` / `UpdatePassword` / `encrypt` are passed as
  explicit arguments; the Go code always passes freshly generated
  byte strings of length 16 (salt) and 12 (GCM nonce).
* The external cryptographic primitives (scrypt, SHA-256, AES-256-GCM)
  and the `encoding/json` round trip are not part of this repository;
  they are modelled by concrete executable functions that expose
  exactly the interface behaviour the repository's code relies on
  (determinism, output lengths, authenticated-encryption success and
  failure, marshal/unmarshal inversion).  Each such model carries a
  doc comment naming what it stands for.
* SQLite `ExecContext` write failures for the `configs` upsert are
  modelled by an explicit `dbOk : Bool` argument to `SaveConfig`
  (the corresponding `if err != nil` branch exists in the source);
  read-side I/O failures are not modelled.
-/

/-! ## Byte strings -/

/-- Bytes of an ASCII Lean string literal, used to write Go string
constants of the source as `List Nat` byte strings. -/
def goStr (s : String) : List Nat :=
  s.data.map Char.toNat

/-- ASCII whitespace bytes recognized by `unicode.IsSpace` (the ASCII
fragment used by `strings.TrimSpace` on ASCII data). -/
def isSpaceByte (c : Nat) : Bool :=
  c == 32 || c == 9 || c == 10 || c == 11 || c == 12 || c == 13

/-- Model of Go `strings.TrimSpace` on byte strings (ASCII fragment):
drop leading and trailing whitespace bytes. -/
def trimSpaceBytes (s : List Nat) : List Nat :=
  ((s.dropWhile isSpaceByte).reverse.dropWhile isSpaceByte).reverse

/-- Model of Go `strings.ToLower` on byte strings (ASCII fragment). -/
def toLowerBytes (s : List Nat) : List Nat :=
  s.map (fun c => if 65 ≤ c ∧ c ≤ 90 then c + 32 else c)

/-! ## Modelled cryptographic primitives

`src/store.go` uses `golang.org/x/crypto/scrypt`, `crypto/sha256` and
`crypto/aes` + `crypto/cipher` (GCM).  These external primitives are
modelled by the concrete functions below.  The store's code depends
only on: determinism of the KDF and the hash, the 32-byte key length,
AES-256-GCM round-tripping under the same key/nonce, authentication
failure under a different key, and the `nonce ∥ ciphertext ∥ tag`
layout produced by `gcm.Seal(nonce, nonce, data, nil)`. -/

/-- Modelled from the spec: `key = scrypt(password, key_salt, N=2^15,
r=8, p=1, dkLen=32)` (§6).  A deterministic executable stand-in for the
external scrypt KDF, producing a 32-byte key. -/
def deriveKey (password salt : List Nat) : List Nat :=
  (List.range 32).map (fun i =>
    (password.foldl (fun a b => (a * (167 + 2 * i) + b + 1) % 65536) (i + 13) +
     salt.foldl (fun a b => (a * (173 + 2 * i) + b + 1) % 65536) (2 * i + 5)) % 256)

/-- Modelled from the spec: `key_hash = sha256(derived_key)` (§3).  A
deterministic executable stand-in for the external SHA-256, producing a
32-byte digest. -/
def sha256Sum (data : List Nat) : List Nat :=
  (List.range 32).map (fun i =>
    data.foldl (fun a b => (a * (179 + 2 * i) + b + 1) % 65536) (i + 9) % 256)

/-- Keystream byte `i` of the modelled AES-256-GCM cipher for a given
key and nonce (internal to the AEAD model). -/
def ksByte (key nonce : List Nat) (i : Nat) : Nat :=
  (key.foldl (fun a b => (a * 131 + b + 1) % 65536) (i % 4096 + 7) +
   nonce.foldl (fun a b => (a * 137 + b + 1) % 65536) (i % 4096 * 3 + 11)) % 256

/-- XOR a byte string against the modelled keystream starting at
position `i` (internal to the AEAD model). -/
def xorKS (key nonce : List Nat) : Nat → List Nat → List Nat
  | _, [] => []
  | i, b :: rest => (b ^^^ ksByte key nonce i) :: xorKS key nonce (i + 1) rest

/-- Modelled from the spec: the 16-byte GCM authentication tag over the
ciphertext, keyed by key and nonce (part of the AEAD model). -/
def gcmTag (key nonce ct : List Nat) : List Nat :=
  (List.range 16).map (fun i =>
    ct.foldl (fun a b => (a * (193 + 2 * i) + b + 1) % 65536) (ksByte key nonce (i + 4096)) % 256)

/-- Modelled from the spec: `AES-256-GCM-seal(nonce, plaintext, key)`
(§6): ciphertext of the plaintext's length followed by a 16-byte
authentication tag. -/
def gcmSeal (key nonce pt : List Nat) : List Nat :=
  let ct := xorKS key nonce 0 pt
  ct ++ gcmTag key nonce ct

/-- Modelled from the spec: GCM open — checks the 16-byte tag and, on
success, inverts `gcmSeal`; returns `none` on authentication failure,
as `gcm.Open` returns an error. -/
def gcmOpen (key nonce data : List Nat) : Option (List Nat) :=
  if data.length < 16 then none
  else
    let ct := data.take (data.length - 16)
    let tag := data.drop (data.length - 16)
    if tag = gcmTag key nonce ct then some (xorKS key nonce 0 ct) else none

/-! ## `compareBytes` (src/store.go) -/

/-- Translated from `compareBytes` in `src/store.go`: constant-time
byte-string comparison by OR-accumulating the XOR of each byte pair. -/
def compareBytes (a b : List Nat) : Bool :=
  if a.length ≠ b.length then false
  else ((a.zip b).foldl (fun r p => r ||| (p.1 ^^^ p.2)) 0) == 0

theorem nat_or_eq_zero (x y : Nat) : x ||| y = 0 ↔ x = 0 ∧ y = 0 := by
  constructor
  · intro h
    constructor
    · apply Nat.eq_of_testBit_eq
      intro i
      have h2 := congrArg (fun n => n.testBit i) h
      simp only [Nat.testBit_or, Nat.zero_testBit, Bool.or_eq_false_iff] at h2
      simp [h2.1, Nat.zero_testBit]
    · apply Nat.eq_of_testBit_eq
      intro i
      have h2 := congrArg (fun n => n.testBit i) h
      simp only [Nat.testBit_or, Nat.zero_testBit, Bool.or_eq_false_iff] at h2
      simp [h2.2, Nat.zero_testBit]
  · rintro ⟨rfl, rfl⟩
    rfl

theorem orXorFold_eq_zero (l : List (Nat × Nat)) (acc : Nat) :
    l.foldl (fun r p => r ||| (p.1 ^^^ p.2)) acc = 0 ↔
      acc = 0 ∧ ∀ p ∈ l, p.1 = p.2 := by
  induction l generalizing acc with
  | nil => simp
  | cons p l ih =>
    simp only [List.foldl_cons, ih, List.mem_cons, nat_or_eq_zero, Nat.xor_eq_zero]
    constructor
    · rintro ⟨⟨h0, hp⟩, hl⟩
      refine ⟨h0, fun q hq => ?_⟩
      rcases hq with rfl | hq
      · exact hp
      · exact hl q hq
    · rintro ⟨h0, hall⟩
      exact ⟨⟨h0, hall p (Or.inl rfl)⟩, fun q hq => hall q (Or.inr hq)⟩

theorem zip_pointwise_eq :
    ∀ {a b : List Nat}, a.length = b.length →
      (∀ p ∈ a.zip b, p.1 = p.2) → a = b
  | [], [], _, _ => rfl
  | [], _ :: _, h, _ => by simp at h
  | _ :: _, [], h, _ => by simp at h
  | x :: a, y :: b, h, hp => by
    have hxy : x = y := hp (x, y) (by simp [List.zip_cons_cons])
    have htail : a = b := by
      apply zip_pointwise_eq (by simpa using h)
      intro q hq
      exact hp q (by simp [List.zip_cons_cons, hq])
    rw [hxy, htail]

theorem mem_zip_self : ∀ {a : List Nat} {p : Nat × Nat}, p ∈ a.zip a → p.1 = p.2 := by
  intro a
  induction a with
  | nil => intro p hp; simp [List.zip] at hp
  | cons x a ih =>
    intro p hp
    rcases List.mem_cons.mp (by simpa [List.zip_cons_cons] using hp) with rfl | hp
    · rfl
    · exact ih hp

/-- `compareBytes` decides equality of byte strings: it returns `true`
exactly on equal inputs. -/
theorem compareBytes_eq_iff (a b : List Nat) : compareBytes a b = true ↔ a = b := by
  unfold compareBytes
  by_cases hl : a.length = b.length
  · simp only [hl, ne_eq, not_true_eq_false, if_false]
    rw [beq_iff_eq, orXorFold_eq_zero]
    constructor
    · rintro ⟨-, hp⟩
      exact zip_pointwise_eq hl hp
    · rintro rfl
      exact ⟨rfl, fun p hp => mem_zip_self hp⟩
  · simp only [ne_eq, hl, not_false_eq_true, if_true]
    constructor
    · intro h
      simp at h
    · rintro rfl
      exact absurd rfl hl

/-! ## AEAD model lemmas -/

theorem xorKS_length (key nonce : List Nat) :
    ∀ (i : Nat) (l : List Nat), (xorKS key nonce i l).length = l.length := by
  intro i l
  induction l generalizing i with
  | nil => rfl
  | cons b rest ih => simp [xorKS, ih]

theorem xorKS_xorKS (key nonce : List Nat) :
    ∀ (i : Nat) (l : List Nat), xorKS key nonce i (xorKS key nonce i l) = l := by
  intro i l
  induction l generalizing i with
  | nil => rfl
  | cons b rest ih =>
    simp only [xorKS, Nat.xor_cancel_right]
    rw [ih (i + 1)]

theorem gcmTag_length (key nonce ct : List Nat) : (gcmTag key nonce ct).length = 16 := by
  simp [gcmTag]

/-- Opening a sealed message with the same key and nonce recovers the
plaintext (AEAD round trip of the model). -/
theorem gcmOpen_gcmSeal (key nonce pt : List Nat) :
    gcmOpen key nonce (gcmSeal key nonce pt) = some pt := by
  unfold gcmOpen gcmSeal
  have hct : (xorKS key nonce 0 pt).length = pt.length := xorKS_length key nonce 0 pt
  have htag : (gcmTag key nonce (xorKS key nonce 0 pt)).length = 16 :=
    gcmTag_length key nonce _
  have hlen : (xorKS key nonce 0 pt ++ gcmTag key nonce (xorKS key nonce 0 pt)).length
      = pt.length + 16 := by
    simp [List.length_append, hct, htag]
  rw [hlen]
  have hnotlt : ¬ (pt.length + 16 < 16) := by omega
  simp only [hnotlt, if_false]
  have hsub : pt.length + 16 - 16 = (xorKS key nonce 0 pt).length := by omega
  rw [hsub, List.take_left, List.drop_left]
  simp [xorKS_xorKS]

/-! ## Encryption wrappers (src/store.go) -/

/-- Error taxonomy of `configStore.encrypt` / `configStore.decrypt`:
cipher construction failure (`aes.NewCipher` on a key whose length is
not 16/24/32), a ciphertext shorter than the nonce (`密文长度异常`),
and GCM authentication failure. -/
inductive cryptoErr
  | invalidKeySize
  | shortCiphertext
  | authFailed
deriving DecidableEq

/-- Translated from `configStore.encrypt` in `src/store.go`: build the
AES-256-GCM cipher over `key`, draw a 12-byte random `nonce` (here an
explicit argument) and return `gcm.Seal(nonce, nonce, data, nil)`, i.e.
the nonce followed by the sealed ciphertext. -/
def encrypt (key nonce data : List Nat) : List Nat × Option cryptoErr :=
  if key.length = 16 ∨ key.length = 24 ∨ key.length = 32 then
    (nonce ++ gcmSeal key nonce data, none)
  else ([], some .invalidKeySize)

/-- Translated from `configStore.decrypt` in `src/store.go`: rebuild
the cipher, reject data shorter than the 12-byte nonce, split off the
nonce and open the remainder. -/
def decrypt (key data : List Nat) : List Nat × Option cryptoErr :=
  if key.length = 16 ∨ key.length = 24 ∨ key.length = 32 then
    if data.length < 12 then ([], some .shortCiphertext)
    else
      match gcmOpen key (data.take 12) (data.drop 12) with
      | some pt => (pt, none)
      | none => ([], some .authFailed)
  else ([], some .invalidKeySize)

theorem decrypt_encrypt (key nonce pt : List Nat)
    (hk : key.length = 32) (hn : nonce.length = 12) :
    decrypt key (nonce ++ gcmSeal key nonce pt) = (pt, none) := by
  have hkor : key.length = 16 ∨ key.length = 24 ∨ key.length = 32 := Or.inr (Or.inr hk)
  unfold decrypt
  simp only [hkor, if_true]
  have hlen : (nonce ++ gcmSeal key nonce pt).length = 12 + (gcmSeal key nonce pt).length := by
    simp [List.length_append, hn]
  have hnotlt : ¬ ((nonce ++ gcmSeal key nonce pt).length < 12) := by omega
  simp only [hnotlt, if_false]
  have htake : (nonce ++ gcmSeal key nonce pt).take 12 = nonce := by
    rw [← hn, List.take_left]
  have hdrop : (nonce ++ gcmSeal key nonce pt).drop 12 = gcmSeal key nonce pt := by
    rw [← hn, List.drop_left]
  rw [htake, hdrop, gcmOpen_gcmSeal]

/-! ## JSON model

`configStore.SaveConfig` serializes the whole `configPayload` with
`encoding/json` and encrypts the resulting byte string as one blob;
`LoadConfig` decrypts and unmarshals it.  The `encoding/json` round
trip over `configPayload` (all fields are strings, ints and bools) is
modelled by an injective length-prefixed byte encoding together with
its decoder. -/

def encBytes (s : List Nat) : List Nat := s.length :: s

def decBytes : List Nat → Option (List Nat × List Nat)
  | [] => none
  | n :: rest => if n ≤ rest.length then some (rest.take n, rest.drop n) else none

theorem decBytes_encBytes (s t : List Nat) : decBytes (encBytes s ++ t) = some (s, t) := by
  have hle : s.length ≤ (s ++ t).length := by simp [List.length_append]
  simp [encBytes, decBytes, hle, List.take_left, List.drop_left]

theorem decBytes_encBytes_nil (s : List Nat) : decBytes (encBytes s) = some (s, []) := by
  simpa using decBytes_encBytes s []

def encInt : Int → List Nat
  | .ofNat n => [0, n]
  | .negSucc n => [1, n]

def decInt : List Nat → Option (Int × List Nat)
  | 0 :: n :: rest => some (.ofNat n, rest)
  | 1 :: n :: rest => some (.negSucc n, rest)
  | _ => none

theorem decInt_encInt (i : Int) (t : List Nat) : decInt (encInt i ++ t) = some (i, t) := by
  cases i <;> rfl

def encBool : Bool → List Nat
  | false => [0]
  | true => [1]

def decBool : List Nat → Option (Bool × List Nat)
  | 0 :: rest => some (false, rest)
  | 1 :: rest => some (true, rest)
  | _ => none

theorem decBool_encBool (b : Bool) (t : List Nat) : decBool (encBool b ++ t) = some (b, t) := by
  cases b <;> rfl

/-! ## `configPayload` (src/server.go) -/

/-- Translated from `configPayload` in `src/server.go`: the full
configuration document that the store persists.  String fields are byte
strings, numeric fields Go ints, defaults are Go zero values. -/
structure configPayload where
  Listen : List Nat := []
  Timezone : List Nat := []
  Target : List Nat := []
  BaseURL : List Nat := []
  Order : List Nat := []
  PageSize : Int := 0
  MaxConversations : Int := 0
  InitialOffset : Int := 0
  IncludeArchived : Bool := false
  Token : List Nat := []
  DeviceID : List Nat := []
  UserAgent : List Nat := []
  AcceptLanguage : List Nat := []
  Referer : List Nat := []
  Cookie : List Nat := []
  Origin : List Nat := []
  OaiLanguage : List Nat := []
  SecChUA : List Nat := []
  SecChUAMobile : List Nat := []
  SecChUAPlatform : List Nat := []
  SecFetchDest : List Nat := []
  SecFetchMode : List Nat := []
  SecFetchSite : List Nat := []
  ChatGPTAccountID : List Nat := []
  OAIClientVersion : List Nat := []
  Priority : List Nat := []
  LogPath : List Nat := []
  AnytypeBaseURL : List Nat := []
  AnytypeVersion : List Nat := []
  AnytypeSpaceID : List Nat := []
  AnytypeTypeKey : List Nat := []
  AnytypeToken : List Nat := []
  NotionBaseURL : List Nat := []
  NotionVersion : List Nat := []
  NotionToken : List Nat := []
  NotionParentType : List Nat := []
  NotionParentID : List Nat := []
  NotionTitleProperty : List Nat := []
deriving DecidableEq

/-- Model of `json.Marshal` on `configPayload`: an injective byte
encoding of all 38 fields in declaration order. -/
def jsonMarshalPayload (p : configPayload) : List Nat :=
  encBytes p.Listen ++ encBytes p.Timezone ++ encBytes p.Target ++ encBytes p.BaseURL ++
  encBytes p.Order ++ encInt p.PageSize ++ encInt p.MaxConversations ++
  encInt p.InitialOffset ++ encBool p.IncludeArchived ++ encBytes p.Token ++
  encBytes p.DeviceID ++ encBytes p.UserAgent ++ encBytes p.AcceptLanguage ++
  encBytes p.Referer ++ encBytes p.Cookie ++ encBytes p.Origin ++ encBytes p.OaiLanguage ++
  encBytes p.SecChUA ++ encBytes p.SecChUAMobile ++ encBytes p.SecChUAPlatform ++
  encBytes p.SecFetchDest ++ encBytes p.SecFetchMode ++ encBytes p.SecFetchSite ++
  encBytes p.ChatGPTAccountID ++ encBytes p.OAIClientVersion ++ encBytes p.Priority ++
  encBytes p.LogPath ++ encBytes p.AnytypeBaseURL ++ encBytes p.AnytypeVersion ++
  encBytes p.AnytypeSpaceID ++ encBytes p.AnytypeTypeKey ++ encBytes p.AnytypeToken ++
  encBytes p.NotionBaseURL ++ encBytes p.NotionVersion ++ encBytes p.NotionToken ++
  encBytes p.NotionParentType ++ encBytes p.NotionParentID ++ encBytes p.NotionTitleProperty

/-- One decoding step of the modelled `json.Unmarshal`: decode the
next field from the remaining bytes and set it in the payload under
construction. -/
def decStep {α : Type} (dec : List Nat → Option (α × List Nat))
    (set : configPayload → α → configPayload)
    (st : Option (configPayload × List Nat)) : Option (configPayload × List Nat) :=
  match st with
  | none => none
  | some (p, r) =>
    match dec r with
    | none => none
    | some (v, r2) => some (set p v, r2)

/-- Model of `json.Unmarshal` into `configPayload`: decode the 38
fields in declaration order, starting from the zero payload. -/
def jsonUnmarshalPayload (data : List Nat) : Option configPayload :=
  (some (({} : configPayload), data)
    |> decStep decBytes (fun p v => { p with Listen := v })
    |> decStep decBytes (fun p v => { p with Timezone := v })
    |> decStep decBytes (fun p v => { p with Target := v })
    |> decStep decBytes (fun p v => { p with BaseURL := v })
    |> decStep decBytes (fun p v => { p with Order := v })
    |> decStep decInt (fun p v => { p with PageSize := v })
    |> decStep decInt (fun p v => { p with MaxConversations := v })
    |> decStep decInt (fun p v => { p with InitialOffset := v })
    |> decStep decBool (fun p v => { p with IncludeArchived := v })
    |> decStep decBytes (fun p v => { p with Token := v })
    |> decStep decBytes (fun p v => { p with DeviceID := v })
    |> decStep decBytes (fun p v => { p with UserAgent := v })
    |> decStep decBytes (fun p v => { p with AcceptLanguage := v })
    |> decStep decBytes (fun p v => { p with Referer := v })
    |> decStep decBytes (fun p v => { p with Cookie := v })
    |> decStep decBytes (fun p v => { p with Origin := v })
    |> decStep decBytes (fun p v => { p with OaiLanguage := v })
    |> decStep decBytes (fun p v => { p with SecChUA := v })
    |> decStep decBytes (fun p v => { p with SecChUAMobile := v })
    |> decStep decBytes (fun p v => { p with SecChUAPlatform := v })
    |> decStep decBytes (fun p v => { p with SecFetchDest := v })
    |> decStep decBytes (fun p v => { p with SecFetchMode := v })
    |> decStep decBytes (fun p v => { p with SecFetchSite := v })
    |> decStep decBytes (fun p v => { p with ChatGPTAccountID := v })
    |> decStep decBytes (fun p v => { p with OAIClientVersion := v })
    |> decStep decBytes (fun p v => { p with Priority := v })
    |> decStep decBytes (fun p v => { p with LogPath := v })
    |> decStep decBytes (fun p v => { p with AnytypeBaseURL := v })
    |> decStep decBytes (fun p v => { p with AnytypeVersion := v })
    |> decStep decBytes (fun p v => { p with AnytypeSpaceID := v })
    |> decStep decBytes (fun p v => { p with AnytypeTypeKey := v })
    |> decStep decBytes (fun p v => { p with AnytypeToken := v })
    |> decStep decBytes (fun p v => { p with NotionBaseURL := v })
    |> decStep decBytes (fun p v => { p with NotionVersion := v })
    |> decStep decBytes (fun p v => { p with NotionToken := v })
    |> decStep decBytes (fun p v => { p with NotionParentType := v })
    |> decStep decBytes (fun p v => { p with NotionParentID := v })
    |> decStep decBytes (fun p v => { p with NotionTitleProperty := v })
  ).map Prod.fst

/-- The modelled `encoding/json` round trip: unmarshalling a marshalled
`configPayload` recovers it. -/
theorem jsonUnmarshal_jsonMarshal (p : configPayload) :
    jsonUnmarshalPayload (jsonMarshalPayload p) = some p := by
  simp only [jsonMarshalPayload, jsonUnmarshalPayload, List.append_assoc, decStep,
    decBytes_encBytes, decInt_encInt, decBool_encBool, decBytes_encBytes_nil, Option.map]

/-! ## The store (src/store.go, type `configStore`) -/

/-- The two relations of the backing SQLite file that `configStore`
touches: the `metadata` rows `key_salt` / `key_hash`, and the single
`configs` row with name `active` holding the encrypted blob. -/
structure storeDB where
  metaSalt : Option (List Nat) := none
  metaHash : Option (List Nat) := none
  configsActive : Option (List Nat) := none
deriving DecidableEq

/-- In-memory state of `configStore` (src/store.go): the backing file,
the cached derived key, and the `hasPassword` / `unlocked` flags. -/
structure configStoreS where
  db : storeDB := {}
  key : Option (List Nat) := none
  hasPassword : Bool := false
  unlocked : Bool := false
deriving DecidableEq

/-- Error taxonomy of the store methods, one constructor per distinct
error value or wrapped error message in `src/store.go`. -/
inductive storeErr
  /-- `密码已存在，请使用修改密码接口` -/
  | passwordExists
  /-- `errPasswordTooShort` -/
  | passwordTooShort
  /-- `errPasswordNotSet` -/
  | passwordNotSet
  /-- `errInvalidPassword` -/
  | invalidPassword
  /-- `metadata key ... not found` from `loadMetadataValue` -/
  | metadataMissing
  /-- `配置存储缺少密码信息` (empty salt row) -/
  | missingPasswordInfo
  /-- `errStoreLocked` -/
  | storeLocked
  /-- `errConfigNotFound` -/
  | configNotFound
  /-- `加密配置失败` (wrapping a cipher construction failure) -/
  | encryptFailed
  /-- `解密配置失败` (wrapping a decrypt failure) -/
  | decryptFailed
  /-- `解析配置失败` (json.Unmarshal failure) -/
  | parseFailed
  /-- `写入配置失败` (SQLite exec failure on the `configs` upsert) -/
  | writeFailed
deriving DecidableEq

/-- `len(password) < minPasswordBytes` check of `src/store.go`. -/
def minPasswordBytes : Nat := 8

/-- Translated from `newConfigStore` in `src/store.go`: after creating
the schema, `detectPassword` probes for the `key_salt` metadata row;
`hasPassword` is its presence and `unlocked` starts as its negation. -/
def newConfigStore (db : storeDB) : configStoreS :=
  let hasPw := db.metaSalt.isSome
  { db := db, key := none, hasPassword := hasPw, unlocked := !hasPw }

/-- Translated from `configStore.SetPassword` in `src/store.go`.  The
fresh random 16-byte salt drawn by `randomBytes(16)` is an explicit
argument.  Only legal when no password exists; trims the password and
rejects fewer than 8 bytes; persists salt and key hash in one
transaction and transitions to unlocked with the derived key cached. -/
def SetPassword (s : configStoreS) (salt password : List Nat) :
    configStoreS × Option storeErr :=
  if s.hasPassword then (s, some .passwordExists)
  else
    let pw := trimSpaceBytes password
    if pw.length < minPasswordBytes then (s, some .passwordTooShort)
    else
      let key := deriveKey pw salt
      let hash := sha256Sum key
      ({ db := { s.db with metaSalt := some salt, metaHash := some hash },
         key := some key, hasPassword := true, unlocked := true }, none)

/-- Translated from `configStore.Unlock` in `src/store.go`: requires a
password to exist, trims the supplied password and rejects the empty
string, loads the salt, derives a key, and compares its SHA-256 against
the stored hash with `compareBytes`; on match caches the key and sets
`unlocked`, on mismatch returns `errInvalidPassword` with the state
untouched. -/
def Unlock (s : configStoreS) (password : List Nat) :
    configStoreS × Option storeErr :=
  if s.hasPassword = false then (s, some .passwordNotSet)
  else
    let pw := trimSpaceBytes password
    if pw = [] then (s, some .invalidPassword)
    else
      match s.db.metaSalt with
      | none => (s, some .metadataMissing)
      | some salt =>
        if salt.length = 0 then (s, some .missingPasswordInfo)
        else
          let key := deriveKey pw salt
          let hash := sha256Sum key
          match s.db.metaHash with
          | none => (s, some .metadataMissing)
          | some existing =>
            if compareBytes hash existing then
              ({ s with key := some key, unlocked := true }, none)
            else (s, some .invalidPassword)

/-- Translated from `configStore.UpdatePassword` in `src/store.go`:
requires the unlocked state with a cached key; trims and length-checks
the new password; generates a new salt (explicit argument), derives the
new key, and upserts the new salt and hash in one transaction.  Note
that the stored `configs` blob is NOT re-encrypted here. -/
def UpdatePassword (s : configStoreS) (salt newPassword : List Nat) :
    configStoreS × Option storeErr :=
  if s.unlocked = false ∨ s.key = none then (s, some .storeLocked)
  else
    let pw := trimSpaceBytes newPassword
    if pw.length < minPasswordBytes then (s, some .passwordTooShort)
    else
      let key := deriveKey pw salt
      let hash := sha256Sum key
      let db2 := { s.db with metaSalt := some salt, metaHash := some hash }
      ({ s with db := db2, key := some key, hasPassword := true, unlocked := true }, none)

/-- Translated from `configStore.SaveConfig` in `src/store.go`:
requires a password and the unlocked state with a cached key; marshals
the payload to JSON, encrypts it (12-byte random nonce as explicit
argument) and upserts the blob into the `configs` row named `active`.
`dbOk` models the result of the SQLite `ExecContext` upsert. -/
def SaveConfig (s : configStoreS) (nonce : List Nat) (dbOk : Bool)
    (payload : configPayload) : configStoreS × Option storeErr :=
  if s.hasPassword = false then (s, some .passwordNotSet)
  else
    match s.key with
    | none => (s, some .storeLocked)
    | some k =>
      if s.unlocked = false then (s, some .storeLocked)
      else
        let data := jsonMarshalPayload payload
        match encrypt k nonce data with
        | (_, some _) => (s, some .encryptFailed)
        | (enc, none) =>
          if dbOk then
            ({ s with db := { s.db with configsActive := some enc } }, none)
          else (s, some .writeFailed)

/-- Translated from `configStore.LoadConfig` in `src/store.go`:
requires a password and the unlocked state with a cached key; reads the
`configs` row named `active` (absence is `errConfigNotFound`), decrypts
it with the cached key and unmarshals the JSON document. -/
def LoadConfig (s : configStoreS) : configPayload × Option storeErr :=
  if s.hasPassword = false then ({}, some .passwordNotSet)
  else
    match s.key with
    | none => ({}, some .storeLocked)
    | some k =>
      if s.unlocked = false then ({}, some .storeLocked)
      else
        match s.db.configsActive with
        | none => ({}, some .configNotFound)
        | some enc =>
          match decrypt k enc with
          | (_, some _) => ({}, some .decryptFailed)
          | (plain, none) =>
            match jsonUnmarshalPayload plain with
            | none => ({}, some .parseFailed)
            | some p => (p, none)

theorem deriveKey_length (password salt : List Nat) :
    (deriveKey password salt).length = 32 := by
  simp [deriveKey]

theorem compareBytes_self (a : List Nat) : compareBytes a a = true :=
  (compareBytes_eq_iff a a).mpr rfl

/-! ## Store-level theorems and concrete scenario inputs -/

set_option maxRecDepth 40000

/-- A concrete 16-byte salt, as drawn by `randomBytes(16)`. -/
def saltA : List Nat := List.replicate 16 2

/-- A second concrete 16-byte salt for password rotation. -/
def saltB : List Nat := List.replicate 16 3

/-- A concrete first password (12 ASCII bytes, no whitespace). -/
def pwOld : List Nat := goStr "oldpassword1"

/-- A concrete rotation password. -/
def pwNew : List Nat := goStr "newpassword1"

/-- A concrete 12-byte GCM nonce, as drawn by `randomBytes` inside
`configStore.encrypt`. -/
def nonce0 : List Nat := List.replicate 12 0

/-- A fresh store over an empty backing file. -/
def s0 : configStoreS := newConfigStore {}

/-- The store after `SetPassword(pwOld)` with salt `saltA`. -/
def s1 : configStoreS := (SetPassword s0 saltA pwOld).1

/-- The store after additionally persisting the zero document. -/
def s2 : configStoreS := (SaveConfig s1 nonce0 true ({} : configPayload)).1

/-- The store after rotating the password to `pwNew` with salt `saltB`. -/
def s3 : configStoreS := (UpdatePassword s2 saltB pwNew).1

/-- C1: `configStore.UpdatePassword` commits the new salt and key hash
and swaps the in-memory key but does not re-encrypt the stored
`configs` blob: on a concrete unlocked store holding a document
readable before rotation, the rotation succeeds and the very same
stored ciphertext then fails to decrypt under the new key, so
`LoadConfig` returns the decrypt-failure error instead of the
document.  This refutes the claim that rotation re-encrypts stored
ciphertext before committing the new salt and hash. -/
theorem updatePassword_orphans_ciphertext :
    (SetPassword s0 saltA pwOld).2 = none ∧
    (SaveConfig s1 nonce0 true ({} : configPayload)).2 = none ∧
    LoadConfig s2 = (({} : configPayload), none) ∧
    (UpdatePassword s2 saltB pwNew).2 = none ∧
    s3.db.configsActive = s2.db.configsActive ∧
    (LoadConfig s3).2 = some storeErr.decryptFailed := by
  refine ⟨?_, ?_, ?_, ?_, ?_, ?_⟩ <;> decide

/-- C5: for every 32-byte key, every 12-byte nonce and every plaintext
byte string (empty ones included), `configStore.encrypt` succeeds and
produces exactly the 12-byte nonce followed by the AES-256-GCM sealed
ciphertext, and `configStore.decrypt` inverts it under the same key. -/
theorem encrypt_decrypt_roundtrip (key nonce x : List Nat)
    (hk : key.length = 32) (hn : nonce.length = 12) :
    encrypt key nonce x = (nonce ++ gcmSeal key nonce x, none) ∧
    decrypt key (nonce ++ gcmSeal key nonce x) = (x, none) := by
  have hkor : key.length = 16 ∨ key.length = 24 ∨ key.length = 32 := Or.inr (Or.inr hk)
  constructor
  · simp [encrypt, hkor]
  · exact decrypt_encrypt key nonce x hk hn

/-- Witness for C5 at a concrete key, nonce and plaintext. -/
theorem encrypt_decrypt_roundtrip_witness :
    encrypt (List.replicate 32 5) (List.replicate 12 7) [1, 2, 3]
      = (List.replicate 12 7 ++ gcmSeal (List.replicate 32 5) (List.replicate 12 7) [1, 2, 3],
         none) ∧
    decrypt (List.replicate 32 5)
        (List.replicate 12 7 ++ gcmSeal (List.replicate 32 5) (List.replicate 12 7) [1, 2, 3])
      = ([1, 2, 3], none) :=
  encrypt_decrypt_roundtrip (List.replicate 32 5) (List.replicate 12 7) [1, 2, 3]
    (by decide) (by decide)

/-- C2: on an unlocked store with a cached 32-byte key, `SaveConfig`
of any document followed by `LoadConfig` succeeds and returns exactly
that document. -/
theorem saveConfig_loadConfig_roundtrip (s : configStoreS) (k nonce : List Nat)
    (p : configPayload) (hp : s.hasPassword = true) (hu : s.unlocked = true)
    (hk : s.key = some k) (hklen : k.length = 32) (hn : nonce.length = 12) :
    (SaveConfig s nonce true p).2 = none ∧
    LoadConfig (SaveConfig s nonce true p).1 = (p, none) := by
  have hkor : k.length = 16 ∨ k.length = 24 ∨ k.length = 32 := Or.inr (Or.inr hklen)
  constructor
  · simp [SaveConfig, hp, hk, hu, encrypt, hkor]
  · simp [SaveConfig, LoadConfig, hp, hk, hu, encrypt, hkor,
      decrypt_encrypt k nonce (jsonMarshalPayload p) hklen hn, jsonUnmarshal_jsonMarshal]

/-- Witness for C2: the concrete unlocked store `s1` with the zero
document. -/
theorem saveConfig_loadConfig_roundtrip_witness :
    (SaveConfig s1 nonce0 true ({} : configPayload)).2 = none ∧
    LoadConfig (SaveConfig s1 nonce0 true ({} : configPayload)).1
      = (({} : configPayload), none) :=
  saveConfig_loadConfig_roundtrip s1 (deriveKey (trimSpaceBytes pwOld) saltA) nonce0
    ({} : configPayload) (by decide) (by decide) (by decide) (by decide) (by decide)

/-- An 8-byte password whose first byte is an ASCII space, so that its
trimmed form has only 7 bytes. -/
def pwPad : List Nat := goStr " 1234567"

/-- C3 counterexample: the password `" 1234567"` is 8 bytes long, yet
`SetPassword` on a fresh no-password store rejects it with the
too-short error and leaves the store unchanged, because the code trims
whitespace before checking the 8-byte minimum. -/
theorem setPassword_counterexample :
    pwPad.length = 8 ∧
    SetPassword s0 saltA pwPad = (s0, some storeErr.passwordTooShort) := by
  refine ⟨?_, ?_⟩ <;> decide

/-- C3 (amended: the 8-byte minimum applies to the whitespace-trimmed
password): on a no-password store, `SetPassword` with any password
whose trimmed form has at least 8 bytes succeeds, transitions to
unlocked with `hasPassword` set and the derived 32-byte key cached,
and a subsequent `Unlock` with the same password over the persisted
salt and hash (after a restart, modelled by a fresh `newConfigStore`
over the same backing file) succeeds and derives the identical key. -/
theorem setPassword_unlock_roundtrip (s : configStoreS) (salt password : List Nat)
    (hnp : s.hasPassword = false)
    (hlen : minPasswordBytes ≤ (trimSpaceBytes password).length)
    (hsalt : salt.length = 16) :
    (SetPassword s salt password).2 = none ∧
    (SetPassword s salt password).1.hasPassword = true ∧
    (SetPassword s salt password).1.unlocked = true ∧
    (SetPassword s salt password).1.key = some (deriveKey (trimSpaceBytes password) salt) ∧
    (deriveKey (trimSpaceBytes password) salt).length = 32 ∧
    (Unlock (newConfigStore (SetPassword s salt password).1.db) password).2 = none ∧
    (Unlock (newConfigStore (SetPassword s salt password).1.db) password).1.unlocked = true ∧
    (Unlock (newConfigStore (SetPassword s salt password).1.db) password).1.key
      = some (deriveKey (trimSpaceBytes password) salt) := by
  have hm : minPasswordBytes = 8 := rfl
  have hnotlt : ¬ ((trimSpaceBytes password).length < minPasswordBytes) := by omega
  have hne : ¬ (trimSpaceBytes password = []) := by
    intro h
    rw [h] at hlen
    simp [hm] at hlen
  have hsne : ¬ (salt.length = 0) := by omega
  refine ⟨?_, ?_, ?_, ?_, ?_, ?_, ?_, ?_⟩ <;>
    simp [SetPassword, Unlock, newConfigStore, hnp, hnotlt, hne, hsne,
      compareBytes_self, deriveKey_length]

/-- Witness for C3 (amended) at the concrete fresh store, salt and
password of the scenario. -/
theorem setPassword_unlock_roundtrip_witness :
    (SetPassword s0 saltA pwOld).2 = none ∧
    (SetPassword s0 saltA pwOld).1.hasPassword = true ∧
    (SetPassword s0 saltA pwOld).1.unlocked = true ∧
    (SetPassword s0 saltA pwOld).1.key = some (deriveKey (trimSpaceBytes pwOld) saltA) ∧
    (deriveKey (trimSpaceBytes pwOld) saltA).length = 32 ∧
    (Unlock (newConfigStore (SetPassword s0 saltA pwOld).1.db) pwOld).2 = none ∧
    (Unlock (newConfigStore (SetPassword s0 saltA pwOld).1.db) pwOld).1.unlocked = true ∧
    (Unlock (newConfigStore (SetPassword s0 saltA pwOld).1.db) pwOld).1.key
      = some (deriveKey (trimSpaceBytes pwOld) saltA) :=
  setPassword_unlock_roundtrip s0 saltA pwOld (by decide) (by decide) (by decide)

/-- C4: on a store with a password, if the SHA-256 of the key derived
from the (trimmed) supplied password differs from the stored key hash,
`Unlock` returns exactly the invalid-password error and the entire
store state — flags, cached key, and the persisted `key_salt` and
`key_hash` rows — is unchanged. -/
theorem unlock_wrong_password (s : configStoreS) (salt stored password : List Nat)
    (hp : s.hasPassword = true) (hsalt : s.db.metaSalt = some salt)
    (hsne : ¬ (salt.length = 0)) (hhash : s.db.metaHash = some stored)
    (hwrong : sha256Sum (deriveKey (trimSpaceBytes password) salt) ≠ stored) :
    Unlock s password = (s, some storeErr.invalidPassword) := by
  have hcmp : compareBytes (sha256Sum (deriveKey (trimSpaceBytes password) salt)) stored
      = false := by
    cases hb : compareBytes (sha256Sum (deriveKey (trimSpaceBytes password) salt)) stored
    · rfl
    · exact absurd ((compareBytes_eq_iff _ _).mp hb) hwrong
  by_cases hpw : trimSpaceBytes password = []
  · simp [Unlock, hp, hpw]
  · simp [Unlock, hp, hpw, hsalt, hsne, hhash, hcmp]

/-- The store of the scenario reopened over the persisted file: locked,
with the salt and hash of `pwOld` on disk. -/
def s1r : configStoreS := newConfigStore s1.db

/-- Witness for C4: unlocking the reopened store with a wrong concrete
password fails with the invalid-password error and changes nothing. -/
theorem unlock_wrong_password_witness :
    Unlock s1r (goStr "wrongpass9") = (s1r, some storeErr.invalidPassword) :=
  unlock_wrong_password s1r saltA (sha256Sum (deriveKey (trimSpaceBytes pwOld) saltA))
    (goStr "wrongpass9") (by decide) (by decide) (by decide) (by decide) (by decide)

/-- C10: a store opened over a file with no `key_salt` row reports
`hasPassword = false` but `unlocked = true`; nevertheless every
`SaveConfig` and every `LoadConfig` call fails with the
password-not-set error, leaving the store contents unchanged, so the
reported unlocked state does not make the store usable. -/
theorem nopassword_store_unusable (db : storeDB) (h : db.metaSalt = none) :
    (newConfigStore db).hasPassword = false ∧
    (newConfigStore db).unlocked = true ∧
    (∀ nonce dbOk payload, SaveConfig (newConfigStore db) nonce dbOk payload
       = (newConfigStore db, some storeErr.passwordNotSet)) ∧
    LoadConfig (newConfigStore db)
      = (({} : configPayload), some storeErr.passwordNotSet) := by
  refine ⟨?_, ?_, ?_, ?_⟩ <;> simp [newConfigStore, SaveConfig, LoadConfig, h]

/-- Witness for C10 at the empty backing file. -/
theorem nopassword_store_unusable_witness :
    (newConfigStore {}).hasPassword = false ∧
    (newConfigStore {}).unlocked = true ∧
    (∀ nonce dbOk payload, SaveConfig (newConfigStore {}) nonce dbOk payload
       = (newConfigStore {}, some storeErr.passwordNotSet)) ∧
    LoadConfig (newConfigStore {})
      = (({} : configPayload), some storeErr.passwordNotSet) :=
  nopassword_store_unusable {} rfl

/-! ## Server-side configuration (src/server.go, src/main.go,
src/constants.go) -/

/-- `defaultBaseURL` of src/constants.go. -/
def defaultBaseURL : List Nat := goStr "https://chatgpt.com/backend-api"

/-- `exportTargetAnytype` of src/constants.go. -/
def exportTargetAnytype : List Nat := goStr "anytype"

/-- `exportTargetNotion` of src/constants.go. -/
def exportTargetNotion : List Nat := goStr "notion"

/-- Translated from `normalizeExportTarget` in `src/server.go`. -/
def normalizeExportTarget (value : List Nat) : List Nat :=
  if toLowerBytes (trimSpaceBytes value) = exportTargetNotion then exportTargetNotion
  else exportTargetAnytype

/-- Translated from `normalizeOrder` in `src/server.go`. -/
def normalizeOrder (value : List Nat) : List Nat :=
  if toLowerBytes (trimSpaceBytes value) = goStr "created" then goStr "created"
  else goStr "updated"

/-- Translated from `ensureBaseURL` in `src/server.go`. -/
def ensureBaseURL (value : List Nat) : List Nat :=
  let trimmed := trimSpaceBytes value
  if trimmed = [] then defaultBaseURL else trimmed

/-- Translated from `clampPageSize` in `src/server.go`: values ≤ 0
become 20, values above 100 become 100. -/
def clampPageSize (value : Int) : Int :=
  let v := if value ≤ 0 then 20 else value
  if v > 100 then 100 else v

/-- Translated from `nonNegative` in `src/server.go`. -/
def nonNegative (value : Int) : Int :=
  if value < 0 then 0 else value

/-- Translated from `sanitizeNotionParentType` in `src/server.go`:
only `page` and `database` are accepted, anything else becomes empty. -/
def sanitizeNotionParentType (value : List Nat) : List Nat :=
  let lv := toLowerBytes (trimSpaceBytes value)
  if lv = goStr "page" then goStr "page"
  else if lv = goStr "database" then goStr "database"
  else []

/-- Translated from `cliConfig` in `src/main.go`: the in-memory
configuration snapshot mutated by the web server.  Defaults are Go
zero values. -/
structure cliConfig where
  BaseURL : List Nat := []
  OutputPath : List Nat := []
  Order : List Nat := []
  PageSize : Int := 0
  MaxConversations : Int := 0
  InitialOffset : Int := 0
  IncludeArchived : Bool := false
  Token : List Nat := []
  OutputTimezone : List Nat := []
  DeviceID : List Nat := []
  UserAgent : List Nat := []
  AcceptLanguage : List Nat := []
  Referer : List Nat := []
  Cookie : List Nat := []
  Origin : List Nat := []
  OaiLanguage : List Nat := []
  SecChUA : List Nat := []
  SecChUAMobile : List Nat := []
  SecChUAPlatform : List Nat := []
  SecFetchDest : List Nat := []
  SecFetchMode : List Nat := []
  SecFetchSite : List Nat := []
  ChatGPTAccountID : List Nat := []
  OAIClientVersion : List Nat := []
  Priority : List Nat := []
  LogPath : List Nat := []
  AnytypeBaseURL : List Nat := []
  AnytypeVersion : List Nat := []
  AnytypeSpaceID : List Nat := []
  AnytypeTypeKey : List Nat := []
  AnytypeToken : List Nat := []
  NotionBaseURL : List Nat := []
  NotionVersion : List Nat := []
  NotionToken : List Nat := []
  NotionParentType : List Nat := []
  NotionParentID : List Nat := []
  NotionTitleProperty : List Nat := []
  ExportTarget : List Nat := []
  ConfigDBPath : List Nat := []
  ConfigSecret : List Nat := []
  ServeMode : Bool := false
  ServeAddr : List Nat := []

/-- Translated from `configUpdate` in `src/server.go`: the partial
patch accepted by `POST /api/config`; absent JSON fields decode to
`nil` pointers, modelled as `none`. -/
structure configUpdate where
  Listen : Option (List Nat) := none
  Timezone : Option (List Nat) := none
  Target : Option (List Nat) := none
  BaseURL : Option (List Nat) := none
  Order : Option (List Nat) := none
  PageSize : Option Int := none
  MaxConversations : Option Int := none
  InitialOffset : Option Int := none
  IncludeArchived : Option Bool := none
  Token : Option (List Nat) := none
  DeviceID : Option (List Nat) := none
  UserAgent : Option (List Nat) := none
  AcceptLanguage : Option (List Nat) := none
  Referer : Option (List Nat) := none
  Cookie : Option (List Nat) := none
  Origin : Option (List Nat) := none
  OaiLanguage : Option (List Nat) := none
  SecChUA : Option (List Nat) := none
  SecChUAMobile : Option (List Nat) := none
  SecChUAPlatform : Option (List Nat) := none
  SecFetchDest : Option (List Nat) := none
  SecFetchMode : Option (List Nat) := none
  SecFetchSite : Option (List Nat) := none
  ChatGPTAccountID : Option (List Nat) := none
  OAIClientVersion : Option (List Nat) := none
  Priority : Option (List Nat) := none
  LogPath : Option (List Nat) := none
  AnytypeBaseURL : Option (List Nat) := none
  AnytypeVersion : Option (List Nat) := none
  AnytypeSpaceID : Option (List Nat) := none
  AnytypeTypeKey : Option (List Nat) := none
  AnytypeToken : Option (List Nat) := none
  NotionBaseURL : Option (List Nat) := none
  NotionVersion : Option (List Nat) := none
  NotionToken : Option (List Nat) := none
  NotionParentType : Option (List Nat) := none
  NotionParentID : Option (List Nat) := none
  NotionTitleProperty : Option (List Nat) := none

/-- Translated from `configToPayload` in `src/server.go`: project the
snapshot onto the persisted document, trimming every string field,
normalizing the enumerated fields, clamping the numeric ones, and
falling back to `defaultBaseURL` when the trimmed base URL is empty. -/
def configToPayload (cfg : cliConfig) : configPayload :=
  let payload : configPayload :=
    { Listen := trimSpaceBytes cfg.ServeAddr
      Timezone := trimSpaceBytes cfg.OutputTimezone
      Target := normalizeExportTarget cfg.ExportTarget
      BaseURL := trimSpaceBytes cfg.BaseURL
      Order := normalizeOrder cfg.Order
      PageSize := clampPageSize cfg.PageSize
      MaxConversations := nonNegative cfg.MaxConversations
      InitialOffset := nonNegative cfg.InitialOffset
      IncludeArchived := cfg.IncludeArchived
      Token := trimSpaceBytes cfg.Token
      DeviceID := trimSpaceBytes cfg.DeviceID
      UserAgent := trimSpaceBytes cfg.UserAgent
      AcceptLanguage := trimSpaceBytes cfg.AcceptLanguage
      Referer := trimSpaceBytes cfg.Referer
      Cookie := trimSpaceBytes cfg.Cookie
      Origin := trimSpaceBytes cfg.Origin
      OaiLanguage := trimSpaceBytes cfg.OaiLanguage
      SecChUA := trimSpaceBytes cfg.SecChUA
      SecChUAMobile := trimSpaceBytes cfg.SecChUAMobile
      SecChUAPlatform := trimSpaceBytes cfg.SecChUAPlatform
      SecFetchDest := trimSpaceBytes cfg.SecFetchDest
      SecFetchMode := trimSpaceBytes cfg.SecFetchMode
      SecFetchSite := trimSpaceBytes cfg.SecFetchSite
      ChatGPTAccountID := trimSpaceBytes cfg.ChatGPTAccountID
      OAIClientVersion := trimSpaceBytes cfg.OAIClientVersion
      Priority := trimSpaceBytes cfg.Priority
      LogPath := trimSpaceBytes cfg.LogPath
      AnytypeBaseURL := trimSpaceBytes cfg.AnytypeBaseURL
      AnytypeVersion := trimSpaceBytes cfg.AnytypeVersion
      AnytypeSpaceID := trimSpaceBytes cfg.AnytypeSpaceID
      AnytypeTypeKey := trimSpaceBytes cfg.AnytypeTypeKey
      AnytypeToken := trimSpaceBytes cfg.AnytypeToken
      NotionBaseURL := trimSpaceBytes cfg.NotionBaseURL
      NotionVersion := trimSpaceBytes cfg.NotionVersion
      NotionToken := trimSpaceBytes cfg.NotionToken
      NotionParentType := sanitizeNotionParentType cfg.NotionParentType
      NotionParentID := trimSpaceBytes cfg.NotionParentID
      NotionTitleProperty := trimSpaceBytes cfg.NotionTitleProperty }
  if payload.BaseURL = [] then { payload with BaseURL := defaultBaseURL } else payload

/-- Translated from the field-merge section of `webServer.updateConfig`
in `src/server.go` (lines 566-683): apply exactly the fields present in
the patch, each through its own normalizer, leaving absent fields
untouched. -/
def applyConfigUpdate (cfg : cliConfig) (input : configUpdate) : cliConfig :=
  { cfg with
    ServeAddr := match input.Listen with
      | some v => trimSpaceBytes v
      | none => cfg.ServeAddr
    OutputTimezone := match input.Timezone with
      | some v => trimSpaceBytes v
      | none => cfg.OutputTimezone
    ExportTarget := match input.Target with
      | some v => normalizeExportTarget v
      | none => cfg.ExportTarget
    BaseURL := match input.BaseURL with
      | some v => ensureBaseURL v
      | none => cfg.BaseURL
    Order := match input.Order with
      | some v => normalizeOrder v
      | none => cfg.Order
    PageSize := match input.PageSize with
      | some v => clampPageSize v
      | none => cfg.PageSize
    MaxConversations := match input.MaxConversations with
      | some v => nonNegative v
      | none => cfg.MaxConversations
    InitialOffset := match input.InitialOffset with
      | some v => nonNegative v
      | none => cfg.InitialOffset
    IncludeArchived := match input.IncludeArchived with
      | some v => v
      | none => cfg.IncludeArchived
    Token := match input.Token with
      | some v => trimSpaceBytes v
      | none => cfg.Token
    DeviceID := match input.DeviceID with
      | some v => trimSpaceBytes v
      | none => cfg.DeviceID
    UserAgent := match input.UserAgent with
      | some v => trimSpaceBytes v
      | none => cfg.UserAgent
    AcceptLanguage := match input.AcceptLanguage with
      | some v => trimSpaceBytes v
      | none => cfg.AcceptLanguage
    Referer := match input.Referer with
      | some v => trimSpaceBytes v
      | none => cfg.Referer
    Cookie := match input.Cookie with
      | some v => trimSpaceBytes v
      | none => cfg.Cookie
    Origin := match input.Origin with
      | some v => trimSpaceBytes v
      | none => cfg.Origin
    OaiLanguage := match input.OaiLanguage with
      | some v => trimSpaceBytes v
      | none => cfg.OaiLanguage
    SecChUA := match input.SecChUA with
      | some v => trimSpaceBytes v
      | none => cfg.SecChUA
    SecChUAMobile := match input.SecChUAMobile with
      | some v => trimSpaceBytes v
      | none => cfg.SecChUAMobile
    SecChUAPlatform := match input.SecChUAPlatform with
      | some v => trimSpaceBytes v
      | none => cfg.SecChUAPlatform
    SecFetchDest := match input.SecFetchDest with
      | some v => trimSpaceBytes v
      | none => cfg.SecFetchDest
    SecFetchMode := match input.SecFetchMode with
      | some v => trimSpaceBytes v
      | none => cfg.SecFetchMode
    SecFetchSite := match input.SecFetchSite with
      | some v => trimSpaceBytes v
      | none => cfg.SecFetchSite
    ChatGPTAccountID := match input.ChatGPTAccountID with
      | some v => trimSpaceBytes v
      | none => cfg.ChatGPTAccountID
    OAIClientVersion := match input.OAIClientVersion with
      | some v => trimSpaceBytes v
      | none => cfg.OAIClientVersion
    Priority := match input.Priority with
      | some v => trimSpaceBytes v
      | none => cfg.Priority
    LogPath := match input.LogPath with
      | some v => trimSpaceBytes v
      | none => cfg.LogPath
    AnytypeBaseURL := match input.AnytypeBaseURL with
      | some v => trimSpaceBytes v
      | none => cfg.AnytypeBaseURL
    AnytypeVersion := match input.AnytypeVersion with
      | some v => trimSpaceBytes v
      | none => cfg.AnytypeVersion
    AnytypeSpaceID := match input.AnytypeSpaceID with
      | some v => trimSpaceBytes v
      | none => cfg.AnytypeSpaceID
    AnytypeTypeKey := match input.AnytypeTypeKey with
      | some v => trimSpaceBytes v
      | none => cfg.AnytypeTypeKey
    AnytypeToken := match input.AnytypeToken with
      | some v => trimSpaceBytes v
      | none => cfg.AnytypeToken
    NotionBaseURL := match input.NotionBaseURL with
      | some v => trimSpaceBytes v
      | none => cfg.NotionBaseURL
    NotionVersion := match input.NotionVersion with
      | some v => trimSpaceBytes v
      | none => cfg.NotionVersion
    NotionToken := match input.NotionToken with
      | some v => trimSpaceBytes v
      | none => cfg.NotionToken
    NotionParentType := match input.NotionParentType with
      | some v => sanitizeNotionParentType v
      | none => cfg.NotionParentType
    NotionParentID := match input.NotionParentID with
      | some v => trimSpaceBytes v
      | none => cfg.NotionParentID
    NotionTitleProperty := match input.NotionTitleProperty with
      | some v => trimSpaceBytes v
      | none => cfg.NotionTitleProperty }

/-! ## Conversation caches and export clients (src/server.go) -/

/-- `conversationCacheTTL = 30 * time.Second` of src/server.go, in
nanoseconds (Go `time.Duration`). -/
def conversationCacheTTL : Int := 30 * 1000000000

/-- `detailCacheTTL = 5 * time.Minute` of src/server.go, in
nanoseconds. -/
def detailCacheTTL : Int := 5 * 60 * 1000000000

/-- Translated from `convPageKey` in `src/server.go`. -/
structure convPageKey where
  offset : Int
  limit : Int
deriving DecidableEq

/-- Translated from `conversationMeta` in the source; the `flexFloat64`
timestamps are opaque payload data to the cache logic and are modelled
as integers. -/
structure conversationMeta where
  ID : List Nat := []
  Title : List Nat := []
  CreateTime : Int := 0
  UpdateTime : Int := 0

/-- Translated from `conversationListResponse` in the source. -/
structure conversationListResponse where
  Items : List conversationMeta := []
  Total : Int := 0
  Limit : Int := 0
  Offset : Int := 0
  HasMore : Bool := false

/-- Translated from `conversationPageCacheEntry` in `src/server.go`;
`fetched` is the `time.Now()` timestamp in nanoseconds. -/
structure conversationPageCacheEntry where
  data : conversationListResponse
  fetched : Int

/-- Translated from `referenceLink` in the source. -/
structure referenceLink where
  Title : List Nat := []
  URL : List Nat := []
  Source : List Nat := []

/-- Translated from `exportMessage` in the source; the `float64`
timestamps are opaque payload data to the cache and are modelled as
integers. -/
structure exportMessage where
  Role : List Nat := []
  CreateTime : Int := 0
  UpdateTime : Int := 0
  Text : List Nat := []
  References : List referenceLink := []

/-- Translated from `exportConversation` in the source. -/
structure exportConversation where
  ID : List Nat := []
  Title : List Nat := []
  CreateTime : Int := 0
  UpdateTime : Int := 0
  Messages : List exportMessage := []

/-- Translated from `detailCacheEntry` in `src/server.go`; the Go
field `export` is named `exportConv` here because `export` is a Lean
keyword. -/
structure detailCacheEntry where
  exportConv : exportConversation
  fetched : Int

/-- First-match association lookup, modelling Go map indexing over the
cache maps (the update functions below keep keys unique). -/
def cacheFind {α β : Type} [DecidableEq α] : List (α × β) → α → Option β
  | [], _ => none
  | e :: rest, k => if e.1 = k then some e.2 else cacheFind rest k

/-- Translated from the `!force` branch of
`webServer.getConversationPage` in `src/server.go`: a cache hit needs
an entry for the key with `now - entry.fetched < conversationCacheTTL`
(`time.Since`); otherwise the caller falls through to a fetch. -/
def pageCacheLookup (cache : List (convPageKey × conversationPageCacheEntry))
    (key : convPageKey) (now : Int) : Option conversationListResponse :=
  match cacheFind cache key with
  | some entry =>
    if now - entry.fetched < conversationCacheTTL then some entry.data else none
  | none => none

/-- Translated from the cache-store step of
`webServer.getConversationPage`: `s.pageCache[key] = {data, time.Now()}`
(map assignment replaces any previous entry for the key). -/
def putPage (cache : List (convPageKey × conversationPageCacheEntry))
    (key : convPageKey) (page : conversationListResponse) (now : Int) :
    List (convPageKey × conversationPageCacheEntry) :=
  (key, { data := page, fetched := now }) :: cache.filter (fun e => ¬ e.1 = key)

/-- Translated from the `!force` branch of
`webServer.loadExportConversation` in `src/server.go`: a cache hit
needs an entry for the id with `now - entry.fetched < detailCacheTTL`. -/
def detailCacheLookup (cache : List (List Nat × detailCacheEntry))
    (id : List Nat) (now : Int) : Option exportConversation :=
  match cacheFind cache id with
  | some entry =>
    if now - entry.fetched < detailCacheTTL then some entry.exportConv else none
  | none => none

/-- Translated from the cache-store step of
`webServer.loadExportConversation`:
`s.detailCache[id] = {export, time.Now()}`. -/
def putDetail (cache : List (List Nat × detailCacheEntry))
    (id : List Nat) (v : exportConversation) (now : Int) :
    List (List Nat × detailCacheEntry) :=
  (id, { exportConv := v, fetched := now }) :: cache.filter (fun e => ¬ e.1 = id)

/-- In-memory state of `webServer` (src/server.go) relevant to
configuration coordination: the snapshot, the resolved location, the
store, both caches and both lazily-built export clients.  A client is
modelled by the snapshot it was built from. -/
structure serverState where
  cfg : cliConfig := {}
  location : List Nat := []
  store : configStoreS := {}
  pageCache : List (convPageKey × conversationPageCacheEntry) := []
  detailCache : List (List Nat × detailCacheEntry) := []
  anyClient : Option cliConfig := none
  notionClient : Option cliConfig := none

/-- Model of `resolveLocation` (src/server.go): the resolved
`time.Location` is opaque to the coordination logic and represented by
the timezone name it was resolved from. -/
def resolveLocation (tz : List Nat) : List Nat := tz

/-- Translated from `webServer.invalidateConversationCache` in
`src/server.go`: replace the page cache with a fresh empty map. -/
def invalidateConversationCache (s : serverState) : serverState :=
  { s with pageCache := [] }

/-- Translated from `webServer.clearDetailCache` in `src/server.go`. -/
def clearDetailCache (s : serverState) : serverState :=
  { s with detailCache := [] }

/-- Translated from `webServer.resetExportClients` in `src/server.go`:
drop both cached clients. -/
def resetExportClients (s : serverState) : serverState :=
  { s with anyClient := none, notionClient := none }

/-- Which log branch `webServer.persistConfig` takes. -/
inductive persistLog
  /-- the save succeeded -/
  | persisted
  /-- `配置未持久化` — the store was locked or password-less -/
  | notPersisted
  /-- `配置持久化失败` — any other save failure -/
  | persistFailed
deriving DecidableEq

/-- Translated from `webServer.persistConfig` in `src/server.go`: call
`SaveConfig` with the full projected document; on failure only log —
`errStoreLocked` / `errPasswordNotSet` as not-persisted, anything else
as persist-failed.  No error is ever returned to the caller (the Go
function has no return value). -/
def persistConfig (store : configStoreS) (nonce : List Nat) (dbOk : Bool)
    (cfg : cliConfig) : configStoreS × persistLog :=
  match SaveConfig store nonce dbOk (configToPayload cfg) with
  | (st, none) => (st, .persisted)
  | (st, some e) =>
    if e = .storeLocked ∨ e = .passwordNotSet then (st, .notPersisted)
    else (st, .persistFailed)

/-- Result of `webServer.updateConfig`: the new server state, the
payload returned to the HTTP caller, the returned error (the source's
single return statement is `return payload, nil`), and the log branch
the persistence step took. -/
structure updateResult where
  state : serverState
  payload : configPayload
  err : Option storeErr
  log : persistLog

/-- Translated from `webServer.updateConfig` in `src/server.go`
(lines 566-696): merge the patch onto the snapshot under the lock,
recompute the location, build the full payload, then invalidate the
page cache, clear the detail cache, reset the export clients, and
persist the merged snapshot through the store; the function returns
`payload, nil` unconditionally. -/
def updateConfig (s : serverState) (input : configUpdate) (nonce : List Nat)
    (dbOk : Bool) : updateResult :=
  let cfg := applyConfigUpdate s.cfg input
  let payload := configToPayload cfg
  let s1 := invalidateConversationCache
    { s with cfg := cfg, location := resolveLocation cfg.OutputTimezone }
  let s2 := clearDetailCache s1
  let s3 := resetExportClients s2
  let pr := persistConfig s3.store nonce dbOk cfg
  { state := { s3 with store := pr.1 }, payload := payload, err := none, log := pr.2 }

/-- C6: `updateConfig` applies only the fields present in the patch —
for every field of the snapshot whose corresponding patch field is
`none`, the field is unchanged by the merge. -/
theorem updateConfig_frame (cfg : cliConfig) (input : configUpdate) :
    (input.Listen = none → (applyConfigUpdate cfg input).ServeAddr = cfg.ServeAddr) ∧
    (input.Timezone = none → (applyConfigUpdate cfg input).OutputTimezone = cfg.OutputTimezone) ∧
    (input.Target = none → (applyConfigUpdate cfg input).ExportTarget = cfg.ExportTarget) ∧
    (input.BaseURL = none → (applyConfigUpdate cfg input).BaseURL = cfg.BaseURL) ∧
    (input.Order = none → (applyConfigUpdate cfg input).Order = cfg.Order) ∧
    (input.PageSize = none → (applyConfigUpdate cfg input).PageSize = cfg.PageSize) ∧
    (input.MaxConversations = none →
      (applyConfigUpdate cfg input).MaxConversations = cfg.MaxConversations) ∧
    (input.InitialOffset = none →
      (applyConfigUpdate cfg input).InitialOffset = cfg.InitialOffset) ∧
    (input.IncludeArchived = none →
      (applyConfigUpdate cfg input).IncludeArchived = cfg.IncludeArchived) ∧
    (input.Token = none → (applyConfigUpdate cfg input).Token = cfg.Token) ∧
    (input.DeviceID = none → (applyConfigUpdate cfg input).DeviceID = cfg.DeviceID) ∧
    (input.UserAgent = none → (applyConfigUpdate cfg input).UserAgent = cfg.UserAgent) ∧
    (input.AcceptLanguage = none →
      (applyConfigUpdate cfg input).AcceptLanguage = cfg.AcceptLanguage) ∧
    (input.Referer = none → (applyConfigUpdate cfg input).Referer = cfg.Referer) ∧
    (input.Cookie = none → (applyConfigUpdate cfg input).Cookie = cfg.Cookie) ∧
    (input.Origin = none → (applyConfigUpdate cfg input).Origin = cfg.Origin) ∧
    (input.OaiLanguage = none →
      (applyConfigUpdate cfg input).OaiLanguage = cfg.OaiLanguage) ∧
    (input.SecChUA = none → (applyConfigUpdate cfg input).SecChUA = cfg.SecChUA) ∧
    (input.SecChUAMobile = none →
      (applyConfigUpdate cfg input).SecChUAMobile = cfg.SecChUAMobile) ∧
    (input.SecChUAPlatform = none →
      (applyConfigUpdate cfg input).SecChUAPlatform = cfg.SecChUAPlatform) ∧
    (input.SecFetchDest = none →
      (applyConfigUpdate cfg input).SecFetchDest = cfg.SecFetchDest) ∧
    (input.SecFetchMode = none →
      (applyConfigUpdate cfg input).SecFetchMode = cfg.SecFetchMode) ∧
    (input.SecFetchSite = none →
      (applyConfigUpdate cfg input).SecFetchSite = cfg.SecFetchSite) ∧
    (input.ChatGPTAccountID = none →
      (applyConfigUpdate cfg input).ChatGPTAccountID = cfg.ChatGPTAccountID) ∧
    (input.OAIClientVersion = none →
      (applyConfigUpdate cfg input).OAIClientVersion = cfg.OAIClientVersion) ∧
    (input.Priority = none → (applyConfigUpdate cfg input).Priority = cfg.Priority) ∧
    (input.LogPath = none → (applyConfigUpdate cfg input).LogPath = cfg.LogPath) ∧
    (input.AnytypeBaseURL = none →
      (applyConfigUpdate cfg input).AnytypeBaseURL = cfg.AnytypeBaseURL) ∧
    (input.AnytypeVersion = none →
      (applyConfigUpdate cfg input).AnytypeVersion = cfg.AnytypeVersion) ∧
    (input.AnytypeSpaceID = none →
      (applyConfigUpdate cfg input).AnytypeSpaceID = cfg.AnytypeSpaceID) ∧
    (input.AnytypeTypeKey = none →
      (applyConfigUpdate cfg input).AnytypeTypeKey = cfg.AnytypeTypeKey) ∧
    (input.AnytypeToken = none →
      (applyConfigUpdate cfg input).AnytypeToken = cfg.AnytypeToken) ∧
    (input.NotionBaseURL = none →
      (applyConfigUpdate cfg input).NotionBaseURL = cfg.NotionBaseURL) ∧
    (input.NotionVersion = none →
      (applyConfigUpdate cfg input).NotionVersion = cfg.NotionVersion) ∧
    (input.NotionToken = none →
      (applyConfigUpdate cfg input).NotionToken = cfg.NotionToken) ∧
    (input.NotionParentType = none →
      (applyConfigUpdate cfg input).NotionParentType = cfg.NotionParentType) ∧
    (input.NotionParentID = none →
      (applyConfigUpdate cfg input).NotionParentID = cfg.NotionParentID) ∧
    (input.NotionTitleProperty = none →
      (applyConfigUpdate cfg input).NotionTitleProperty = cfg.NotionTitleProperty) := by
  refine ⟨?_, ?_, ?_, ?_, ?_, ?_, ?_, ?_, ?_, ?_, ?_, ?_, ?_, ?_, ?_, ?_, ?_, ?_, ?_,
    ?_, ?_, ?_, ?_, ?_, ?_, ?_, ?_, ?_, ?_, ?_, ?_, ?_, ?_, ?_, ?_, ?_, ?_, ?_⟩ <;>
    (intro h; simp [applyConfigUpdate, h])

/-- A concrete patch carrying only a token. -/
def inputTok : configUpdate := { Token := some (goStr "tok") }

/-- Witness for C6: merging a token-only patch leaves the listen
address and the cookie of the zero snapshot unchanged. -/
theorem updateConfig_frame_witness :
    (applyConfigUpdate {} inputTok).ServeAddr = ({} : cliConfig).ServeAddr ∧
    (applyConfigUpdate {} inputTok).Cookie = ({} : cliConfig).Cookie :=
  ⟨(updateConfig_frame {} inputTok).1 rfl,
   (updateConfig_frame {} inputTok).2.2.2.2.2.2.2.2.2.2.2.2.2.2.1 rfl⟩

/-- C7: after any `updateConfig` call both caches are empty — so every
subsequent non-forced page or detail lookup misses regardless of the
time — and both cached export clients are reset. -/
theorem updateConfig_clears_caches (s : serverState) (input : configUpdate)
    (nonce : List Nat) (dbOk : Bool) :
    (updateConfig s input nonce dbOk).state.pageCache = [] ∧
    (updateConfig s input nonce dbOk).state.detailCache = [] ∧
    (updateConfig s input nonce dbOk).state.anyClient = none ∧
    (updateConfig s input nonce dbOk).state.notionClient = none ∧
    (∀ key now,
      pageCacheLookup (updateConfig s input nonce dbOk).state.pageCache key now = none) ∧
    (∀ id now,
      detailCacheLookup (updateConfig s input nonce dbOk).state.detailCache id now = none) := by
  refine ⟨?_, ?_, ?_, ?_, ?_, ?_⟩ <;>
    simp [updateConfig, invalidateConversationCache, clearDetailCache, resetExportClients,
      pageCacheLookup, detailCacheLookup, cacheFind]

/-- C8: an entry stored at time `t` is returned by a non-forced lookup
at every time strictly before `t` plus the TTL and missed at every time
at or after it — with the 5-minute TTL for details and the 30-second
TTL for page listings. -/
theorem cache_ttl (pc : List (convPageKey × conversationPageCacheEntry))
    (dc : List (List Nat × detailCacheEntry)) (key : convPageKey) (id : List Nat)
    (pg : conversationListResponse) (v : exportConversation) (t tq : Int) :
    (tq < t + detailCacheTTL → detailCacheLookup (putDetail dc id v t) id tq = some v) ∧
    (t + detailCacheTTL ≤ tq → detailCacheLookup (putDetail dc id v t) id tq = none) ∧
    (tq < t + conversationCacheTTL → pageCacheLookup (putPage pc key pg t) key tq = some pg) ∧
    (t + conversationCacheTTL ≤ tq → pageCacheLookup (putPage pc key pg t) key tq = none) := by
  refine ⟨?_, ?_, ?_, ?_⟩
  · intro h
    have hc : tq - t < detailCacheTTL := by omega
    simp [putDetail, detailCacheLookup, cacheFind, hc]
  · intro h
    have hc : ¬ (tq - t < detailCacheTTL) := by omega
    simp [putDetail, detailCacheLookup, cacheFind, hc]
  · intro h
    have hc : tq - t < conversationCacheTTL := by omega
    simp [putPage, pageCacheLookup, cacheFind, hc]
  · intro h
    have hc : ¬ (tq - t < conversationCacheTTL) := by omega
    simp [putPage, pageCacheLookup, cacheFind, hc]

/-- The conversation id of the concrete cache scenario. -/
def convId : List Nat := goStr "c1"

/-- A concrete cached detail value. -/
def exportV : exportConversation := { ID := convId, Title := goStr "t1" }

/-- Witness for C8: the spec scenario — `put_detail("c1", v)` at t = 0,
hit at 60 s, miss at 301 s; and for pages, hit at 10 s, miss at 30 s. -/
theorem cache_ttl_witness :
    detailCacheLookup (putDetail [] convId exportV 0) convId 60000000000 = some exportV ∧
    detailCacheLookup (putDetail [] convId exportV 0) convId 301000000000 = none ∧
    pageCacheLookup (putPage [] ⟨0, 20⟩ {} 0) ⟨0, 20⟩ 10000000000 = some {} ∧
    pageCacheLookup (putPage [] ⟨0, 20⟩ {} 0) ⟨0, 20⟩ 30000000000 = none :=
  ⟨(cache_ttl [] [] ⟨0, 20⟩ convId {} exportV 0 60000000000).1 (by decide),
   (cache_ttl [] [] ⟨0, 20⟩ convId {} exportV 0 301000000000).2.1 (by decide),
   (cache_ttl [] [] ⟨0, 20⟩ convId {} exportV 0 10000000000).2.2.1 (by decide),
   (cache_ttl [] [] ⟨0, 20⟩ convId {} exportV 0 30000000000).2.2.2 (by decide)⟩

/-- C9 (amended: no persistence failure is returned to the caller):
`updateConfig` always returns `payload, nil` — the in-memory merge is
kept whatever the persistence outcome — and the persistence step only
logs: lock-state failures as not-persisted, every other failure as
persist-failed. -/
theorem updateConfig_swallows_persist_errors (s : serverState) (input : configUpdate)
    (nonce : List Nat) (dbOk : Bool) :
    (updateConfig s input nonce dbOk).err = none ∧
    (updateConfig s input nonce dbOk).state.cfg = applyConfigUpdate s.cfg input ∧
    (∀ e, (SaveConfig s.store nonce dbOk
             (configToPayload (applyConfigUpdate s.cfg input))).2 = some e →
       ((e = .storeLocked ∨ e = .passwordNotSet) →
          (updateConfig s input nonce dbOk).log = .notPersisted) ∧
       (¬ (e = .storeLocked ∨ e = .passwordNotSet) →
          (updateConfig s input nonce dbOk).log = .persistFailed)) := by
  refine ⟨rfl, rfl, ?_⟩
  intro e he
  rcases hs : SaveConfig s.store nonce dbOk
      (configToPayload (applyConfigUpdate s.cfg input)) with ⟨st, e2⟩
  rw [hs] at he
  simp only at he
  subst he
  constructor <;> intro hcond <;>
    simp [updateConfig, invalidateConversationCache, clearDetailCache,
      resetExportClients, persistConfig, hs, hcond]

/-- A server whose store is the concrete unlocked password-protected
store `s1`. -/
def srvC9 : serverState := { store := s1 }

/-- C9 counterexample: with the store unlocked (so the failure is not a
lock-state failure) and the SQLite write failing, `SaveConfig` fails
with the write error, `updateConfig` logs it as persist-failed — and
still returns no error to its caller, refuting the claim that non-lock
persistence failures are returned. -/
theorem persist_failure_not_returned :
    (SaveConfig s1 nonce0 false
       (configToPayload (applyConfigUpdate ({} : cliConfig) ({} : configUpdate)))).2
      = some storeErr.writeFailed ∧
    (updateConfig srvC9 {} nonce0 false).log = persistLog.persistFailed ∧
    (updateConfig srvC9 {} nonce0 false).err = none := by
  refine ⟨?_, ?_, ?_⟩ <;> decide

/-- Witness for C9 (amended) at the same concrete failing persistence. -/
theorem updateConfig_swallows_persist_errors_witness :
    (updateConfig srvC9 ({} : configUpdate) nonce0 false).err = none ∧
    (updateConfig srvC9 ({} : configUpdate) nonce0 false).log = persistLog.persistFailed :=
  ⟨(updateConfig_swallows_persist_errors srvC9 {} nonce0 false).1,
   ((updateConfig_swallows_persist_errors srvC9 {} nonce0 false).2.2 storeErr.writeFailed
      (by decide)).2 (by decide)⟩
